import Mathlib

/-!
Verification of the blood-test chat relay (`src/app.py`).

The development shallowly embeds the parts of `app.py` that the claims are
about:

* the Session Store (`uploaded_data_store`, a dict used via assignment and
  `pop(session_id, None)`) as a function `String → Option String`;
* the File Processor (`pdf_to_text`, `image_to_base64`, the branching body of
  `upload_file`), with the two external library calls (PyMuPDF page text
  extraction) abstracted as an `Except Unit (List String)` input: `Except.ok`
  gives the per-page texts the `for page in doc` loop concatenates, and
  `Except.error` stands for the `except Exception` path of `pdf_to_text`;
* base64 (`base64.b64encode` on bytes, standard alphabet with `=` padding)
  implemented over `List Nat` bytes;
* one iteration of the relay loop of `websocket_endpoint` (`processTurn`):
  JSON parse / plain-text fallback, `pop` of the pending file, building
  `message_content`, the `continue` skip, the streaming loop that forwards
  every truthy `chunk.choices[0].delta.content` and accumulates
  `full_bot_response`, and the conditional assistant append.  The upstream
  stream is abstracted as a `List (Option String)` of per-chunk
  `delta.content` values (`none` = chunk without content, as in role or
  finish chunks);
* the receive itself (`relayStep` over `WireMsg`) distinguishes the three
  parse outcomes of `json.loads` on the raw websocket text: a JSON object
  payload, text that is not valid JSON (degraded to plain text by the
  `except json.JSONDecodeError` branch), and valid JSON that is not an
  object, where `message_payload.get` raises `AttributeError` — uncaught by
  the inner handler — so the outer handler closes the connection before the
  pending-file `pop` runs.

Python string slicing `text[:15000]` is embedded as `strTake` (take on the
character list) and `str.startswith` as `startsWithStr` (prefix of the
character list).
-/

/-- The Session Store `uploaded_data_store`: a mapping from session id to the
pending processed-file payload, absent entries modelled as `none`. -/
def Store : Type := String → Option String

/-- The initial empty `uploaded_data_store = {}`. -/
def emptyStore : Store := fun _ => none

/-- Put: `uploaded_data_store[session_id] = processed_content`, unconditional
overwrite. -/
def put (s : Store) (sid payload : String) : Store :=
  fun k => if k = sid then some payload else s k

/-- Take: `uploaded_data_store.pop(session_id, None)`, read-and-remove; first
component is the popped value (`none` when absent), second the store after
removal. -/
def take (s : Store) (sid : String) : Option String × Store :=
  (s sid, fun k => if k = sid then none else s k)

/-- Python string slicing `s[:n]`: the first `n` characters. -/
def strTake (s : String) (n : Nat) : String := String.mk (s.data.take n)

/-- Python `s.startswith(p)`: `p` is a character-prefix of `s`. -/
def startsWithStr (s p : String) : Bool := p.data.isPrefixOf s.data

/-- The standard base64 alphabet used by `base64.b64encode`. -/
def b64Alphabet : List Char :=
  "ABCDEFGHIJKLMNOPQRSTUVWXYZabcdefghijklmnopqrstuvwxyz0123456789+/".data

/-- The alphabet character for a sextet value. -/
def b64Char (n : Nat) : Char := b64Alphabet.getD n '='

/-- Index of a character in a list, `none` when absent. -/
def charIndex (l : List Char) (c : Char) : Option Nat :=
  match l with
  | [] => none
  | x :: xs => if x = c then some 0 else (charIndex xs c).map (fun n => n + 1)

/-- The sextet value of a base64 alphabet character. -/
def b64Index (c : Char) : Option Nat := charIndex b64Alphabet c

/-- Base64 encoding of a byte list (each byte `< 256`), three bytes at a
time into four characters, `=`-padded exactly as `base64.b64encode`. -/
def encode3 : List Nat → List Char
  | [] => []
  | [a] => [b64Char (a / 4), b64Char (a % 4 * 16), '=', '=']
  | [a, b] => [b64Char (a / 4), b64Char (a % 4 * 16 + b / 16), b64Char (b % 16 * 4), '=']
  | a :: b :: c :: rest =>
      b64Char (a / 4) :: b64Char (a % 4 * 16 + b / 16) ::
      b64Char (b % 16 * 4 + c / 64) :: b64Char (c % 64) :: encode3 rest

/-- Base64 decoding back to bytes, four characters at a time, honouring the
`=` padding; `none` on malformed input. -/
def decode4 : List Char → Option (List Nat)
  | [] => some []
  | c0 :: c1 :: c2 :: c3 :: rest =>
      match b64Index c0, b64Index c1 with
      | some s0, some s1 =>
          if c2 = '=' then
            if c3 = '=' ∧ rest = [] then some [s0 * 4 + s1 / 16] else none
          else
            match b64Index c2 with
            | some s2 =>
                if c3 = '=' then
                  if rest = [] then some [s0 * 4 + s1 / 16, s1 % 16 * 16 + s2 / 4] else none
                else
                  match b64Index c3, decode4 rest with
                  | some s3, some bs =>
                      some ((s0 * 4 + s1 / 16) :: (s1 % 16 * 16 + s2 / 4) :: (s2 % 4 * 64 + s3) :: bs)
                  | _, _ => none
            | none => none
      | _, _ => none
  | _ => none

/-- Encoding `base64.b64encode(file_bytes).decode('utf-8')` as a string. -/
def b64encode (bytes : List Nat) : String := String.mk (encode3 bytes)

/-- Inverse of `b64encode` (what a client decoding the data URI computes). -/
def b64decode (s : String) : Option (List Nat) := decode4 s.data

/-- Function `pdf_to_text` of `app.py`: concatenate the page texts in page order and
keep the first 15000 characters (`text[:15000]`); the `except` branch
returns the fixed fallback string. -/
def pdf_to_text (extraction : Except Unit (List String)) : String :=
  match extraction with
  | Except.ok pages => strTake (pages.foldl (fun a b => a ++ b) "") 15000
  | Except.error _ => "Could not extract text from the PDF file."

/-- Function `image_to_base64` of `app.py`: the f-string
`data:{mime_type};base64,{base64_image}`. -/
def image_to_base64 (file_bytes : List Nat) (mime_type : String) : String :=
  "data:" ++ mime_type ++ ";base64," ++ b64encode file_bytes

/-- The fixed text before the extracted text in the PDF payload f-string of
`upload_file`. -/
def pdfPreamble : String :=
  "The user uploaded a PDF. The extracted text is as follows:\n---\n"

/-- The fixed text after the extracted text in the PDF payload f-string of
`upload_file`. -/
def pdfSuffix : String := "\n---\n"

/-- Outcome of the `/uploadfile` endpoint: the JSON response data, or the
`HTTPException(status_code=400, ...)`. -/
inductive UploadOutcome : Type
  | ok (content_type_description : String) (file_type : String) (session_id : String)
  | clientError (status_code : Nat) (detail : String)
deriving DecidableEq

/-- The body of `upload_file` in `app.py`: branch on the declared
content-type, build the processed content, store it under the session id.
The `else` branch raises before the store assignment, so it returns the
store unchanged. -/
def upload_file (file_bytes : List Nat) (mime_type : String) (session_id : String)
    (extraction : Except Unit (List String)) (store : Store) : UploadOutcome × Store :=
  if startsWithStr mime_type "image/" = true then
    (UploadOutcome.ok "an image" mime_type session_id,
     put store session_id (image_to_base64 file_bytes mime_type))
  else if mime_type = "application/pdf" then
    (UploadOutcome.ok "a PDF" mime_type session_id,
     put store session_id (pdfPreamble ++ pdf_to_text extraction ++ pdfSuffix))
  else
    (UploadOutcome.clientError 400 "Unsupported file type.", store)

/-- One part of a user message content list: `{"type": "text", ...}` or
`{"type": "image_url", ...}`. -/
inductive ContentPart : Type
  | text (s : String)
  | image_url (url : String)
deriving DecidableEq

/-- Message content: a plain string (system/assistant) or a part list
(user turns). -/
inductive MsgContent : Type
  | str (s : String)
  | parts (l : List ContentPart)
deriving DecidableEq

/-- One entry of `chat_history`. -/
structure ChatMsg : Type where
  role : String
  content : MsgContent
deriving DecidableEq

/-- A client message that survives the parse step: `json t` when
`json.loads` returns an object whose `"text"` field reads as `t` (a missing
field defaulting to `""`), `raw s` when `json.loads` raises `JSONDecodeError`
on the raw text `s`.  A payload that is valid JSON but not an object raises
`AttributeError` at `message_payload.get` before this point; that path is
modelled at the `WireMsg` level below. -/
inductive ClientMsg : Type
  | json (text : String)
  | raw (s : String)

/-- Result of the receive-and-parse step of the relay loop. -/
structure ParsedTurn : Type where
  userMsg : String
  fileContent : Option String
  store : Store

/-- Step 1 of a relay-loop iteration: on JSON success read the text field and
`pop` the pending file entry; on `JSONDecodeError` use the raw text, no file,
and leave the store untouched. -/
def parseMsg (store : Store) (sid : String) : ClientMsg → ParsedTurn
  | ClientMsg.json t => ⟨t, store sid, fun k => if k = sid then none else store k⟩
  | ClientMsg.raw s => ⟨s, none, store⟩

/-- Step 2 of a relay-loop iteration: build `message_content`.  Mirrors the
Python truthiness tests: `if file_content_data:` is false for `None` and for
the empty string; `elif user_message:` is false for the empty string; the
image branch uses `user_message or "Analyze this image and respond to my
prompt."`. -/
def buildContent (userMsg : String) (fc : Option String) : List ContentPart :=
  match fc with
  | some f =>
      if f = "" then
        if userMsg = "" then [] else [ContentPart.text userMsg]
      else if startsWithStr f "data:image/" = true then
        [ContentPart.text (if userMsg = "" then "Analyze this image and respond to my prompt." else userMsg),
         ContentPart.image_url f]
      else
        [ContentPart.text (f ++ "\n\nUser prompt: " ++ userMsg)]
  | none => if userMsg = "" then [] else [ContentPart.text userMsg]

/-- The fragments the streaming loop sends to the client: for each chunk,
`content = chunk.choices[0].delta.content; if content: websocket.send_text(content)` —
`None` and `""` are falsy and are not sent. -/
def forwardedFragments (stream : List (Option String)) : List String :=
  stream.filterMap (fun o =>
    match o with
    | some c => if c = "" then none else some c
    | none => none)

/-- The text fragments the upstream stream produced: the `delta.content`
values that are present (chunks whose `content` is `None` carry no text
fragment). -/
def upstreamFragments (stream : List (Option String)) : List String :=
  stream.filterMap id

/-- Observable result of one iteration of the relay-loop `while True` body. -/
structure TurnResult : Type where
  history : List ChatMsg
  store : Store
  sent : List String
  upstreamCalled : Bool
  response : String

/-- One iteration of the relay loop of `websocket_endpoint` for one incoming
client message, with the upstream completion stream abstracted as the list of
per-chunk `delta.content` values.  Follows the source step by step: parse
(with pending-file `pop` on the JSON path), build `message_content`,
`continue` when it is empty, otherwise append the user entry, forward the
truthy fragments accumulating `full_bot_response`, and append the assistant
entry only when the accumulated response is non-empty. -/
def processTurn (hist : List ChatMsg) (store : Store) (sid : String)
    (msg : ClientMsg) (stream : List (Option String)) : TurnResult :=
  let p := parseMsg store sid msg
  let mc := buildContent p.userMsg p.fileContent
  if mc = [] then
    ⟨hist, p.store, [], false, ""⟩
  else
    let hist1 := hist ++ [⟨"user", MsgContent.parts mc⟩]
    let sent := forwardedFragments stream
    let resp := sent.foldl (fun a b => a ++ b) ""
    ⟨if resp = "" then hist1 else hist1 ++ [⟨"assistant", MsgContent.str resp⟩],
     p.store, sent, true, resp⟩

/-- Number of assistant entries in a history. -/
def assistantCount (l : List ChatMsg) : Nat :=
  (l.filter (fun m => m.role == "assistant")).length

/-- Classification of one raw websocket text by what `json.loads` does with
it: `objectPayload t` when it yields an object (the expected structure, with
`message_payload.get` reading text `t`); `nonObjectPayload` when it yields a
valid JSON value that is not an object, so `message_payload.get` raises
`AttributeError` — which the inner `except json.JSONDecodeError` does not
catch; `unparsablePayload s` when `json.loads` itself raises
`JSONDecodeError` on the raw text `s`. -/
inductive WireMsg : Type
  | objectPayload (text : String)
  | nonObjectPayload
  | unparsablePayload (s : String)

/-- Outcome of one receive of the relay loop: `next` when the loop body runs
to its end (possibly via `continue`), or `crashed` when an uncaught
exception escapes to the outer handler of `websocket_endpoint`, which
reports it and closes the connection; `crashed` carries the history and
store as they stood at the raise. -/
inductive TurnOutcome : Type
  | next (r : TurnResult)
  | crashed (hist : List ChatMsg) (store : Store)

/-- One receive of the relay loop over the full parse behaviour: an object
payload and unparsable text flow into `processTurn` (JSON path and plain-text
fallback respectively); a valid-JSON non-object payload raises
`AttributeError` at `message_payload.get` — before the pending-file `pop` —
so the loop aborts with history and store untouched and the connection is
closed. -/
def relayStep (hist : List ChatMsg) (store : Store) (sid : String)
    (wire : WireMsg) (stream : List (Option String)) : TurnOutcome :=
  match wire with
  | WireMsg.objectPayload t =>
      TurnOutcome.next (processTurn hist store sid (ClientMsg.json t) stream)
  | WireMsg.unparsablePayload s =>
      TurnOutcome.next (processTurn hist store sid (ClientMsg.raw s) stream)
  | WireMsg.nonObjectPayload => TurnOutcome.crashed hist store

/-- The Session Store as a turn outcome leaves it. -/
def outcomeStore : TurnOutcome → Store
  | TurnOutcome.next r => r.store
  | TurnOutcome.crashed _ s => s

/-! ## Helper lemmas -/

theorem b64Index_b64Char : ∀ n, n < 64 → b64Index (b64Char n) = some n := by decide

theorem b64Char_ne_pad : ∀ n, n < 64 → b64Char n ≠ '=' := by decide

theorem decode4_encode3 : ∀ bs : List Nat, (∀ x ∈ bs, x < 256) →
    decode4 (encode3 bs) = some bs
  | [] => fun _ => rfl
  | [a] => fun h => by
      have ha : a < 256 := h a (by simp)
      have h0 := b64Index_b64Char (a / 4) (by omega)
      have h1 := b64Index_b64Char (a % 4 * 16) (by omega)
      simp [encode3, decode4, h0, h1]
      omega
  | [a, b] => fun h => by
      have ha : a < 256 := h a (by simp)
      have hb : b < 256 := h b (by simp)
      have h0 := b64Index_b64Char (a / 4) (by omega)
      have h1 := b64Index_b64Char (a % 4 * 16 + b / 16) (by omega)
      have h2 := b64Index_b64Char (b % 16 * 4) (by omega)
      have hn2 : b64Char (b % 16 * 4) ≠ '=' := b64Char_ne_pad _ (by omega)
      simp [encode3, decode4, h0, h1, h2, hn2]
      omega
  | a :: b :: c :: rest => fun h => by
      have ha : a < 256 := h a (by simp)
      have hb : b < 256 := h b (by simp)
      have hc : c < 256 := h c (by simp)
      have ih := decode4_encode3 rest (fun x hx => h x (by simp [hx]))
      have h0 := b64Index_b64Char (a / 4) (by omega)
      have h1 := b64Index_b64Char (a % 4 * 16 + b / 16) (by omega)
      have h2 := b64Index_b64Char (b % 16 * 4 + c / 64) (by omega)
      have h3 := b64Index_b64Char (c % 64) (by omega)
      have hn2 : b64Char (b % 16 * 4 + c / 64) ≠ '=' := b64Char_ne_pad _ (by omega)
      have hn3 : b64Char (c % 64) ≠ '=' := b64Char_ne_pad _ (by omega)
      simp [encode3, decode4, h0, h1, h2, h3, hn2, hn3, ih]
      omega

theorem str_append_empty (s : String) : s ++ "" = s := by
  cases s with
  | mk l =>
      show String.mk (l ++ []) = String.mk l
      rw [List.append_nil]

theorem str_empty_append (s : String) : "" ++ s = s := by
  cases s
  rfl

theorem foldl_filter_ne_empty (l : List String) (init : String) :
    (l.filter (fun c => decide (c ≠ ""))).foldl (fun a b => a ++ b) init
      = l.foldl (fun a b => a ++ b) init := by
  induction l generalizing init with
  | nil => rfl
  | cons x xs ih =>
      by_cases hx : x = ""
      · subst hx
        have hcond : decide (("" : String) ≠ "") = false := by decide
        rw [List.filter_cons, hcond, if_neg (by decide : ¬ (false = true)),
            List.foldl_cons, str_append_empty]
        exact ih init
      · have hcond : decide (x ≠ "") = true := by simp [hx]
        rw [List.filter_cons, hcond, if_pos rfl, List.foldl_cons, List.foldl_cons]
        exact ih (init ++ x)

theorem forwarded_eq_filter (stream : List (Option String)) :
    forwardedFragments stream
      = (upstreamFragments stream).filter (fun c => decide (c ≠ "")) := by
  induction stream with
  | nil => rfl
  | cons o rest ih =>
      cases o with
      | none =>
          simpa [forwardedFragments, upstreamFragments, List.filterMap_cons] using ih
      | some c =>
          by_cases hc : c = ""
          · subst hc
            simpa [forwardedFragments, upstreamFragments, List.filterMap_cons,
                   List.filter_cons] using ih
          · simp only [forwardedFragments, upstreamFragments, List.filterMap_cons,
                       List.filter_cons] at ih ⊢
            simp [hc, ih]

theorem upload_pdf_store (file_bytes : List Nat) (sid : String)
    (extraction : Except Unit (List String)) (store : Store) :
    (upload_file file_bytes "application/pdf" sid extraction store).2 sid
      = some (pdfPreamble ++ pdf_to_text extraction ++ pdfSuffix) := by
  have h1 : startsWithStr "application/pdf" "image/" = false := by decide
  simp [upload_file, h1, put]

theorem pdf_to_text_single (text : String) :
    pdf_to_text (Except.ok [text]) = strTake text 15000 := by
  simp [pdf_to_text, str_empty_append]

theorem strTake_length (s : String) (n : Nat) :
    (strTake s n).length = min n s.data.length := by
  show (s.data.take n).length = min n s.data.length
  exact List.length_take n s.data

/-! ## Claim theorems -/

/-- Claim C1, counterexample: a chat turn whose payload fails to parse as
JSON (`json.loads` raises, the `except` branch runs) does not remove the
pending-file entry — after such a turn the entry for the session is still
present, refuting removal "by the end of that turn's processing ...
including a turn whose payload fails to parse". -/
theorem c1_counterexample :
    (processTurn [] (put emptyStore "sid" "PAYLOAD") "sid"
        (ClientMsg.raw "hello") []).store "sid" ≠ none := by
  simp [processTurn, parseMsg, buildContent, put]

/-- Claim C1, amended: a chat turn whose payload parses as a JSON object
removes the pending-file entry for its session id by the end of the turn
regardless of whether a file payload was attached or merged; a turn whose
payload fails to parse as JSON is degraded to plain text and leaves the
Session Store entirely unchanged; and a turn whose payload is valid JSON but
not an object raises `AttributeError` before the pop, aborting the loop with
the Session Store (and the history) unchanged and the connection closed. -/
theorem c1_amended_consume (hist : List ChatMsg) (store : Store)
    (sid t s2 : String) (stream1 stream2 stream3 : List (Option String)) :
    outcomeStore (relayStep hist store sid (WireMsg.objectPayload t) stream1) sid = none
    ∧ outcomeStore (relayStep hist store sid (WireMsg.unparsablePayload s2) stream2) = store
    ∧ relayStep hist store sid WireMsg.nonObjectPayload stream3
        = TurnOutcome.crashed hist store := by
  refine ⟨?_, ?_, rfl⟩
  · simp only [relayStep, outcomeStore, processTurn, parseMsg]
    by_cases hmc : buildContent t (store sid) = [] <;> simp [hmc]
  · simp only [relayStep, outcomeStore, processTurn, parseMsg]
    by_cases hmc : buildContent s2 none = [] <;> simp [hmc]

/-- Claim C2, counterexample: uploading a PDF whose extracted text is 20000
characters does not store exactly the first 15000 characters of the text —
the stored payload wraps them in the fixed f-string preamble and suffix, so
it is not equal to the bare 15000-character prefix. -/
theorem c2_counterexample :
    (upload_file [] "application/pdf" "s"
        (Except.ok [String.mk (List.replicate 20000 'a')]) emptyStore).2 "s"
      ≠ some (String.mk (List.replicate 15000 'a')) := by
  rw [upload_pdf_store, pdf_to_text_single]
  intro hcontra
  have hlen := congrArg String.length (Option.some.inj hcontra)
  rw [String.length_append, String.length_append, strTake_length] at hlen
  have hd : (String.mk (List.replicate 20000 'a')).data.length = 20000 := by
    show (List.replicate 20000 'a').length = 20000
    rw [List.length_replicate]
  have hd2 : (String.mk (List.replicate 15000 'a')).length = 15000 := by
    show (List.replicate 15000 'a').length = 15000
    rw [List.length_replicate]
  have hpre : pdfPreamble.length = 63 := by decide
  have hsuf : pdfSuffix.length = 5 := by decide
  rw [hd, hd2, hpre, hsuf] at hlen
  omega

/-- Claim C2, amended: for a PDF upload whose extracted text is 20000
characters, the extracted-text portion of the stored payload is exactly the
first 15000 characters of the extracted text, and the stored payload is that
prefix wrapped in the fixed preamble and suffix of the `upload_file`
f-string. -/
theorem c2_amended_truncation (text : String) (file_bytes : List Nat)
    (sid : String) (store : Store)
    (hlen : text.data.length = 20000) :
    (upload_file file_bytes "application/pdf" sid (Except.ok [text]) store).2 sid
      = some (pdfPreamble ++ strTake text 15000 ++ pdfSuffix)
    ∧ (strTake text 15000).data = text.data.take 15000
    ∧ (strTake text 15000).length = 15000 := by
  refine ⟨?_, rfl, ?_⟩
  · rw [upload_pdf_store, pdf_to_text_single]
  · rw [strTake_length, hlen]
    omega

/-- Witness for `c2_amended_truncation` at a concrete 20000-character
extracted text. -/
theorem c2_witness :
    (String.mk (List.replicate 20000 'a')).data.length = 20000
    ∧ (strTake (String.mk (List.replicate 20000 'a')) 15000).length = 15000 := by
  have h20 : (String.mk (List.replicate 20000 'a')).data.length = 20000 := by
    show (List.replicate 20000 'a').length = 20000
    rw [List.length_replicate]
  exact ⟨h20, (c2_amended_truncation (String.mk (List.replicate 20000 'a'))
    [] "s" emptyStore h20).2.2⟩

/-- Claim C3, counterexample: an upstream stream that produces the empty
text fragment `""` (as the first content-bearing chunk of an OpenAI stream
can) has that fragment dropped by the `if content:` truthiness test — the
forwarded fragments are not exactly the produced fragments. -/
theorem c3_counterexample :
    forwardedFragments [some "", some "a"] = ["a"]
    ∧ upstreamFragments [some "", some "a"] = ["", "a"]
    ∧ (["a"] : List String) ≠ ["", "a"] := by
  refine ⟨rfl, rfl, by decide⟩

/-- Claim C3, amended: the fragments forwarded to the client are exactly the
non-empty fragments produced by the upstream stream, in the same order with
none dropped or duplicated (empty fragments are dropped by the truthiness
test), and the concatenation of the forwarded fragments equals the
concatenation of all fragments the upstream stream produced. -/
theorem c3_amended_relay (stream : List (Option String)) :
    forwardedFragments stream
      = (upstreamFragments stream).filter (fun c => decide (c ≠ ""))
    ∧ (forwardedFragments stream).foldl (fun a b => a ++ b) ""
        = (upstreamFragments stream).foldl (fun a b => a ++ b) "" := by
  refine ⟨forwarded_eq_filter stream, ?_⟩
  rw [forwarded_eq_filter stream, foldl_filter_ne_empty]

/-- Claim C4: for every image upload the stored payload is the data URI
`data:` + declared mime + `;base64,` followed by the base64 encoding of the
raw bytes, and that encoding decodes back to exactly the original bytes. -/
theorem c4_image_data_uri (file_bytes : List Nat) (mime sid : String)
    (extraction : Except Unit (List String)) (store : Store)
    (hb : ∀ x ∈ file_bytes, x < 256)
    (him : startsWithStr mime "image/" = true) :
    (upload_file file_bytes mime sid extraction store).2 sid
      = some ("data:" ++ mime ++ ";base64," ++ b64encode file_bytes)
    ∧ b64decode (b64encode file_bytes) = some file_bytes := by
  constructor
  · simp [upload_file, him, put, image_to_base64]
  · exact decode4_encode3 file_bytes hb

/-- Witness for `c4_image_data_uri` at a concrete four-byte PNG-style upload
with declared type `image/png`. -/
theorem c4_witness :
    (∀ x ∈ ([137, 80, 78, 71] : List Nat), x < 256)
    ∧ startsWithStr "image/png" "image/" = true
    ∧ b64decode (b64encode [137, 80, 78, 71]) = some [137, 80, 78, 71] :=
  ⟨by decide, by decide,
   (c4_image_data_uri [137, 80, 78, 71] "image/png" "s" (Except.error ())
      emptyStore (by decide) (by decide)).2⟩

/-- Claim C5: the extracted-text part of a PDF upload payload never exceeds
15000 characters whatever the input length, extraction failure yields the
fixed fallback string instead of an error, and the stored payload embeds
`pdf_to_text`'s result between the fixed preamble and suffix. -/
theorem c5_pdf_cap :
    (∀ extraction : Except Unit (List String),
        (pdf_to_text extraction).length ≤ 15000)
    ∧ pdf_to_text (Except.error ())
        = "Could not extract text from the PDF file."
    ∧ (∀ (file_bytes : List Nat) (sid : String)
          (extraction : Except Unit (List String)) (store : Store),
        (upload_file file_bytes "application/pdf" sid extraction store).2 sid
          = some (pdfPreamble ++ pdf_to_text extraction ++ pdfSuffix)) := by
  refine ⟨?_, rfl, fun fb sid ex store => upload_pdf_store fb sid ex store⟩
  intro extraction
  cases extraction with
  | ok pages =>
      show (strTake _ 15000).length ≤ 15000
      rw [strTake_length]
      omega
  | error e =>
      show ("Could not extract text from the PDF file." : String).length ≤ 15000
      decide

/-- Claim C6: `take` directly after `put` on the same session id returns
exactly the stored payload, and a second immediate `take` on that id
returns absent (`none`). -/
theorem c6_put_take (s : Store) (sid p : String) :
    (take (put s sid p) sid).1 = some p
    ∧ (take ((take (put s sid p) sid).2) sid).1 = none := by
  simp [take, put]

/-- Claim C7: an upload whose declared content-type is neither an image type
nor `application/pdf` is rejected with the 400 client error and the Session
Store is returned unmodified. -/
theorem c7_unsupported_reject (file_bytes : List Nat) (mime sid : String)
    (extraction : Except Unit (List String)) (store : Store)
    (h1 : startsWithStr mime "image/" = false)
    (h2 : mime ≠ "application/pdf") :
    upload_file file_bytes mime sid extraction store
      = (UploadOutcome.clientError 400 "Unsupported file type.", store) := by
  simp [upload_file, h1, h2]

/-- Witness for `c7_unsupported_reject` at the `text/plain` upload of the
spec scenario. -/
theorem c7_witness :
    startsWithStr "text/plain" "image/" = false
    ∧ "text/plain" ≠ "application/pdf"
    ∧ upload_file [] "text/plain" "s" (Except.error ()) emptyStore
        = (UploadOutcome.clientError 400 "Unsupported file type.", emptyStore) :=
  ⟨by decide, by decide,
   c7_unsupported_reject [] "text/plain" "s" (Except.error ()) emptyStore
     (by decide) (by decide)⟩

/-- Claim C8: a chat turn with empty user text and no pending file payload
for its session performs no upstream request, sends nothing, and leaves both
the conversation history and the Session Store exactly as they were. -/
theorem c8_empty_turn_noop (hist : List ChatMsg) (store : Store) (sid : String)
    (msg : ClientMsg) (stream : List (Option String))
    (htext : (parseMsg store sid msg).userMsg = "")
    (hstore : store sid = none) :
    processTurn hist store sid msg stream = ⟨hist, store, [], false, ""⟩ := by
  cases msg with
  | json t =>
      have ht : t = "" := htext
      subst ht
      have hst : (fun k => if k = sid then none else store k) = store := by
        funext k
        by_cases hk : k = sid
        · subst hk
          simp [hstore]
        · simp [hk]
      simp [processTurn, parseMsg, buildContent, hstore, hst]
  | raw s =>
      have hs : s = "" := htext
      subst hs
      simp [processTurn, parseMsg, buildContent]

/-- Witness for `c8_empty_turn_noop`: an empty-text JSON turn against the
empty store. -/
theorem c8_witness :
    (parseMsg emptyStore "s" (ClientMsg.json "")).userMsg = ""
    ∧ emptyStore "s" = none
    ∧ processTurn [] emptyStore "s" (ClientMsg.json "") []
        = ⟨[], emptyStore, [], false, ""⟩ :=
  ⟨rfl, rfl, c8_empty_turn_noop [] emptyStore "s" (ClientMsg.json "") [] rfl rfl⟩

/-- Claim C10: a turn that reaches the streaming phase (non-empty
`message_content`) but whose accumulated streamed response is empty keeps
the already-appended user entry — the history grows by exactly one user
entry and no assistant entry, so two consecutive user entries can occur. -/
theorem c10_user_not_rolled_back (hist : List ChatMsg) (store : Store)
    (sid : String) (msg : ClientMsg) (stream : List (Option String))
    (hmc : buildContent (parseMsg store sid msg).userMsg
        (parseMsg store sid msg).fileContent ≠ [])
    (hresp : (forwardedFragments stream).foldl (fun a b => a ++ b) "" = "") :
    (processTurn hist store sid msg stream).history
      = hist ++ [⟨"user", MsgContent.parts (buildContent
          (parseMsg store sid msg).userMsg (parseMsg store sid msg).fileContent)⟩]
    ∧ (processTurn hist store sid msg stream).history.length = hist.length + 1 := by
  simp [processTurn, hmc, hresp]

/-- Witness for `c10_user_not_rolled_back`: a text turn whose upstream
stream produces no content. -/
theorem c10_witness :
    buildContent (parseMsg emptyStore "s" (ClientMsg.json "hello")).userMsg
        (parseMsg emptyStore "s" (ClientMsg.json "hello")).fileContent ≠ []
    ∧ (forwardedFragments []).foldl (fun a b => a ++ b) "" = ""
    ∧ (processTurn [] emptyStore "s" (ClientMsg.json "hello") []).history.length
        = ([] : List ChatMsg).length + 1 :=
  ⟨by decide, rfl,
   (c10_user_not_rolled_back [] emptyStore "s" (ClientMsg.json "hello") []
     (by decide) rfl).2⟩

/-- Claim C9: when a completed turn's accumulated streamed response is
non-empty the history grows by exactly two entries — the appended user entry
followed by the assistant entry carrying the accumulated response — and the
number of assistant entries grows by one exactly when the response is
non-empty (an assistant entry is appended only then). -/
theorem c9_history_grows_by_two (hist : List ChatMsg) (store : Store)
    (sid : String) (msg : ClientMsg) (stream : List (Option String)) :
    ((processTurn hist store sid msg stream).response ≠ "" →
       (processTurn hist store sid msg stream).history.length = hist.length + 2
       ∧ (processTurn hist store sid msg stream).history
           = hist ++ [⟨"user", MsgContent.parts (buildContent
                (parseMsg store sid msg).userMsg
                (parseMsg store sid msg).fileContent)⟩,
              ⟨"assistant", MsgContent.str
                (processTurn hist store sid msg stream).response⟩])
    ∧ assistantCount (processTurn hist store sid msg stream).history
        = assistantCount hist
          + (if (processTurn hist store sid msg stream).response = "" then 0 else 1) := by
  by_cases hmc : buildContent (parseMsg store sid msg).userMsg
      (parseMsg store sid msg).fileContent = []
  · simp [processTurn, hmc]
  · by_cases hresp : (forwardedFragments stream).foldl (fun a b => a ++ b) "" = ""
    · simp [processTurn, hmc, hresp, assistantCount]
    · simp [processTurn, hmc, hresp, assistantCount, List.filter_append]

/-- Witness for `c9_history_grows_by_two`: a concrete turn with a one-chunk
non-empty response grows the empty-prefix history to length two. -/
theorem c9_witness :
    (processTurn [] emptyStore "s" (ClientMsg.json "hi") [some "ok"]).response ≠ ""
    ∧ (processTurn [] emptyStore "s" (ClientMsg.json "hi") [some "ok"]).history.length
        = ([] : List ChatMsg).length + 2 :=
  ⟨by decide,
   ((c9_history_grows_by_two [] emptyStore "s" (ClientMsg.json "hi")
      [some "ok"]).1 (by decide)).1⟩
